import Mathlib

/-!
Verification of the NCBI nucleotide retrieval script
(`2025py2_s26647/s26647_2025-2.py`).

The script is a batch pipeline: `search` establishes a server-side history
session (WebEnv / QueryKey / Count), `fetch_and_filter` pages through the
result set in windows of 100 via `range(0, min(count, max_records), 100)`,
filtering parsed records by length, and `save_csv` sorts the surviving
records descending by length before persisting them.

The shallow embedding below mirrors those functions.  The remote server is
modelled as a function from `(retstart, retmax)` to the list of parsed
records of that page; `sliceServer` is the faithful instance that serves
contiguous slices of a fixed result set.  `save_csv`'s ordering follows
pandas `sort_values(ascending=False)`, which computes a stable *ascending*
argsort and reverses it (`nargsort` reverses the indexer when
`ascending=False`); on short inputs numpy's argsort is stable insertion
sort, so equal keys come out in reversed input order.
-/

namespace NCBI

/-- One parsed GenBank record: `r.id`, `len(r.seq)`, `r.description`. -/
structure SeqRecord where
  id : String
  seqLen : Nat
  description : String
deriving DecidableEq, Repr

/-- An output row `(Accession, Length, Description)` as appended by
`fetch_and_filter` and consumed by `save_csv`. -/
abbrev Row := String × Nat × String

/-- The `(r.id, l, r.description)` triple the script appends. -/
def SeqRecord.toRow (r : SeqRecord) : Row := (r.id, r.seqLen, r.description)

/-- The fields of the `Entrez.esearch` response the script reads:
`res["WebEnv"]`, `res["QueryKey"]`, `int(res["Count"])`. -/
structure ESearchResult where
  webEnv : String
  queryKey : String
  count : Nat
deriving DecidableEq, Repr

/-- The session state `search` stores on the retriever:
`self.env, self.key, self.count`. -/
structure Session where
  env : String
  key : String
  count : Nat
deriving DecidableEq, Repr

/-- `search`: stores `self.env, self.key, self.count` from the esearch
response (the returned value is `self.count`, i.e. `(search res).count`). -/
def search (res : ESearchResult) : Session :=
  { env := res.webEnv, key := res.queryKey, count := res.count }

/-- The fixed page size `step = 100` of `fetch_and_filter`. -/
def step : Nat := 100

/-- Python `range(0, stop, s)` for a positive step `s`: the multiples of
`s` strictly below `stop`, in increasing order. -/
def pyRange (stop s : Nat) : List Nat :=
  List.range' 0 ((stop + s - 1) / s) s

/-- One `Entrez.efetch` call as issued by `fetch_and_filter`, with every
keyword argument the script passes. -/
structure FetchCall where
  db : String
  rettype : String
  retmode : String
  retstart : Nat
  retmax : Nat
  webenv : String
  query_key : String
deriving DecidableEq, Repr

/-- The efetch call the loop body issues for offset `start`. -/
def efetchCall (sess : Session) (start : Nat) : FetchCall :=
  { db := "nucleotide", rettype := "gb", retmode := "text",
    retstart := start, retmax := step,
    webenv := sess.env, query_key := sess.key }

/-- The fetch calls one `fetch_and_filter` run issues, in order: one per
offset of `range(0, min(self.count, max_records), step)`. -/
def fetchCalls (sess : Session) (max_records : Nat) : List FetchCall :=
  (pyRange (min sess.count max_records) step).map (efetchCall sess)

/-- A model of the remote service: the records `SeqIO.parse` yields for a
page requested at offset `retstart` with page size `retmax`. -/
abbrev Server := Nat → Nat → List SeqRecord

/-- The faithful server over a retained result set: a page is the
contiguous slice `[retstart, retstart + retmax)` of the result list. -/
def sliceServer (resultSet : List SeqRecord) : Server :=
  fun start retmax => (resultSet.drop start).take retmax

/-- All records parsed (before filtering) across the pages a
`fetch_and_filter` run requests. -/
def fetchedRecords (sess : Session) (server : Server) (max_records : Nat) :
    List SeqRecord :=
  (pyRange (min sess.count max_records) step).flatMap
    (fun start => server start step)

/-- `fetch_and_filter`: for each page of
`range(0, min(self.count, max_records), step)` keep the records with
`self.min_len <= len(r.seq) <= self.max_len` as `(id, length, description)`
rows, concatenated in page order. -/
def fetch_and_filter (min_len max_len : Int) (sess : Session)
    (server : Server) (max_records : Nat) : List Row :=
  (pyRange (min sess.count max_records) step).flatMap
    (fun start =>
      ((server start step).filter
        (fun r => decide (min_len ≤ (r.seqLen : Int) ∧ (r.seqLen : Int) ≤ max_len))).map
        SeqRecord.toRow)

/-- What a call of `fetch_and_filter` does as a function of the retriever
state: before any `search` the attributes `self.count`/`self.env`/`self.key`
do not exist, and evaluating `min(self.count, max_records)` raises
`AttributeError` on `count`. -/
inductive RunError where
  /-- Python `AttributeError` on the named missing attribute. -/
  | attributeError (attr : String)
  /-- Modelled from the spec: the error `SequenceError: NoActiveSession`
  that the spec says `fetchAndFilter` signals without a session.  No such
  type or signal exists anywhere in the source. -/
  | sequenceErrorNoActiveSession
deriving DecidableEq, Repr

/-- `fetch_and_filter` on the retriever state: `none` is the state before
any successful `search` (no `count`/`env`/`key` attributes). -/
def fetchAndFilterRun (min_len max_len : Int) (st : Option Session)
    (server : Server) (max_records : Nat) : Except RunError (List Row) :=
  match st with
  | none => .error (.attributeError "count")
  | some sess => .ok (fetch_and_filter min_len max_len sess server max_records)

/-- The ordering key of `save_csv`: ascending by the `Length` column. -/
def lengthLe (a b : Row) : Prop := a.2.1 ≤ b.2.1

instance : DecidableRel lengthLe := fun a b =>
  inferInstanceAs (Decidable (a.2.1 ≤ b.2.1))

instance : IsTotal Row lengthLe := ⟨fun a b => Nat.le_total a.2.1 b.2.1⟩

instance : IsTrans Row lengthLe := ⟨fun _ _ _ => Nat.le_trans⟩

/-- The row order `save_csv` persists:
`df.sort_values("Length", ascending=False)`.  pandas `nargsort` computes an
ascending argsort and reverses the indexer for `ascending=False`; on inputs
below numpy's introsort cutoff the ascending argsort is stable insertion
sort, so the persisted order is the reverse of a stable ascending sort. -/
def save_csv (data : List Row) : List Row :=
  (List.insertionSort lengthLe data).reverse

/-- The parsed CLI arguments of `main`. -/
structure Args where
  email : String
  api_key : String
  taxid : String
  min_len : Int
  max_len : Int
  limit : Nat
deriving Repr

/-- The observable outcome of one `main` run: lines printed, files
written, and the process exit code (a plain `return` from `main` ends the
script with exit code 0). -/
structure CLIOutcome where
  printed : List String
  filesWritten : List String
  exitCode : Nat
deriving DecidableEq, Repr

/-- The first status line `main` prints. -/
def searchingMsg (args : Args) : String :=
  "Searching TaxID " ++ args.taxid ++ "..."

/-- The CSV file name `main` writes. -/
def csvName (args : Args) : String :=
  "taxid_" ++ args.taxid ++ "_filtered.csv"

/-- The plot file name `main` writes. -/
def pngName (args : Args) : String :=
  "taxid_" ++ args.taxid ++ "_plot.png"

/-- `main` as a function of the parsed args, the esearch response, and the
server: `if not r.search(taxid)` stops after "No records found.";
`if not data` stops after "No records within length range."; otherwise the
CSV and plot files are written and their names printed. -/
def mainRun (args : Args) (res : ESearchResult) (server : Server) :
    CLIOutcome :=
  if (search res).count = 0 then
    { printed := [searchingMsg args, "No records found."],
      filesWritten := [], exitCode := 0 }
  else
    if fetch_and_filter args.min_len args.max_len (search res)
        server args.limit = [] then
      { printed := [searchingMsg args, "Fetching & filtering...",
                    "No records within length range."],
        filesWritten := [], exitCode := 0 }
    else
      { printed := [searchingMsg args, "Fetching & filtering...",
                    "Saved CSV: " ++ csvName args,
                    "Saved plot: " ++ pngName args],
        filesWritten := [csvName args, pngName args], exitCode := 0 }

/-- A concrete retained result set of 250 records, for instantiating the
pagination bounds. -/
def bigResultSet : List SeqRecord :=
  List.replicate 250 { id := "X", seqLen := 1, description := "" }

/-- The four-record input of the sort-stability example, with lengths
`[120, 500, 120, 300]`. -/
def tieInput : List Row :=
  [("A", 120, "a"), ("B", 500, "b"), ("C", 120, "c"), ("D", 300, "d")]

/-! ## Helper lemmas -/

/-- The `retstart` offsets of the issued fetch calls are exactly
`range(0, min(count, max_records), step)`. -/
theorem fetchCalls_retstart (sess : Session) (M : Nat) :
    (fetchCalls sess M).map FetchCall.retstart
      = pyRange (min sess.count M) step := by
  simp [fetchCalls, List.map_map, Function.comp_def, efetchCall]

/-- Membership in `range(0, stop, 100)`: the multiples of 100 strictly
below `stop`. -/
theorem mem_pyRange (o stop : Nat) :
    o ∈ pyRange stop step ↔ o % 100 = 0 ∧ o < stop := by
  simp only [pyRange, step, List.mem_range']
  constructor
  · rintro ⟨i, hi, rfl⟩
    omega
  · rintro ⟨h1, h2⟩
    exact ⟨o / 100, by omega, by omega⟩

/-- A flat map over pages of at most `n` records each yields at most
`n * pages` records. -/
theorem length_flatMap_le_mul {α β : Type} (l : List α) (f : α → List β)
    (n : Nat) (h : ∀ a ∈ l, (f a).length ≤ n) :
    (l.flatMap f).length ≤ n * l.length := by
  induction l with
  | nil => simp
  | cons a t ih =>
    simp only [List.flatMap_cons, List.length_append, List.length_cons]
    have h1 := h a (List.mem_cons_self a t)
    have h2 := ih (fun b hb => h b (List.mem_cons_of_mem a hb))
    calc (f a).length + (t.flatMap f).length
        ≤ n + n * t.length := Nat.add_le_add h1 h2
      _ = n * (t.length + 1) := by ring

/-- Slices taken at offsets `s, s + p, s + 2p, ...` of one list have total
length at most the length of the list from `s` on. -/
theorem length_flatMap_slice_le {α : Type} (rs : List α) (p : Nat) :
    ∀ (n s : Nat),
      ((List.range' s n p).flatMap
        (fun st => (rs.drop st).take p)).length ≤ (rs.drop s).length := by
  intro n
  induction n with
  | zero => intro s; simp
  | succ k ih =>
    intro s
    rw [List.range'_succ]
    simp only [List.flatMap_cons, List.length_append]
    have h1 := ih (s + p)
    simp only [List.length_take, List.length_drop] at h1 ⊢
    omega

/-- The rows `save_csv` writes are a permutation of its input. -/
theorem save_csv_perm_helper (data : List Row) :
    (save_csv data).Perm data :=
  (List.reverse_perm _).trans (List.perm_insertionSort lengthLe data)

/-! ## Claim theorems -/

/-- C1: for every stored `totalCount` and every `maxRecords`, the
`retstart` offsets of the issued fetch calls are exactly the multiples of
100 strictly below `min(totalCount, maxRecords)`, in strictly increasing
order (hence no repeats and, being all the multiples, no gaps); for
`totalCount = 250` and `maxRecords = 200` exactly the offsets 0 and 100
are issued and 200 is not. -/
theorem fetch_offsets_complete (sess : Session) (M : Nat) :
    (∀ o : Nat, o ∈ (fetchCalls sess M).map FetchCall.retstart ↔
        (o % 100 = 0 ∧ o < min sess.count M))
    ∧ ((fetchCalls sess M).map FetchCall.retstart).Pairwise (· < ·)
    ∧ ((fetchCalls (search ⟨"W", "Q", 250⟩) 200).map FetchCall.retstart
        = [0, 100]) := by
  refine ⟨?_, ?_, by decide⟩
  · intro o
    rw [fetchCalls_retstart]
    exact mem_pyRange o _
  · rw [fetchCalls_retstart]
    exact List.pairwise_lt_range' 0 _ step (by decide)

/-- C1 witness: offset 100 is issued for `totalCount = 250`,
`maxRecords = 200`. -/
theorem fetch_offsets_complete_witness :
    100 ∈ (fetchCalls (search ⟨"W", "Q", 250⟩) 200).map FetchCall.retstart :=
  ((fetch_offsets_complete (search ⟨"W", "Q", 250⟩) 200).1 100).mpr
    (by decide)

/-- C3: every fetch call of one `fetch_and_filter` run carries exactly the
`WebEnv` and `QueryKey` that the preceding `search` stored in the session;
nothing between pages changes them. -/
theorem session_invariance (res : ESearchResult) (M : Nat) :
    ∀ c ∈ fetchCalls (search res) M,
      c.webenv = res.webEnv ∧ c.query_key = res.queryKey := by
  intro c hc
  simp only [fetchCalls, List.mem_map] at hc
  obtain ⟨start, _, rfl⟩ := hc
  exact ⟨rfl, rfl⟩

/-- C3 witness: the first fetch call of a 250-record session carries the
stored handles verbatim. -/
theorem session_invariance_witness :
    (efetchCall (search ⟨"W", "Q", 250⟩) 0).webenv = "W"
    ∧ (efetchCall (search ⟨"W", "Q", 250⟩) 0).query_key = "Q" :=
  session_invariance ⟨"W", "Q", 250⟩ 200 (efetchCall (search ⟨"W", "Q", 250⟩) 0)
    (by decide)

/-- C9: every issued fetch call, the final window included, requests the
full page size `retmax = 100`; with `totalCount = 250` and
`maxRecords = 150` the last window still requests 100 although only 50
records of budget remain. -/
theorem retmax_always_full (sess : Session) (M : Nat) :
    (∀ c ∈ fetchCalls sess M, c.retmax = 100)
    ∧ ((fetchCalls (search ⟨"W", "Q", 250⟩) 150).map
        (fun c => (c.retstart, c.retmax)) = [(0, 100), (100, 100)]) := by
  refine ⟨?_, by decide⟩
  intro c hc
  simp only [fetchCalls, List.mem_map] at hc
  obtain ⟨start, _, rfl⟩ := hc
  rfl

/-- C9 witness: the second (final) window of `totalCount = 250`,
`maxRecords = 150` requests `retmax = 100`. -/
theorem retmax_always_full_witness :
    (efetchCall (search ⟨"W", "Q", 250⟩) 100).retmax = 100 :=
  (retmax_always_full (search ⟨"W", "Q", 250⟩) 150).1
    (efetchCall (search ⟨"W", "Q", 250⟩) 100) (by decide)

/-- C6: if `search` stored `totalCount = 0`, then `fetch_and_filter`
returns the empty list and issues no fetch call, for any `maxRecords` and
any server. -/
theorem zero_count_no_fetch (min_len max_len : Int) (sess : Session)
    (server : Server) (M : Nat) (h : sess.count = 0) :
    fetch_and_filter min_len max_len sess server M = []
    ∧ fetchCalls sess M = [] := by
  have hrange : pyRange (min sess.count M) step = [] := by
    rw [h]
    simp [pyRange, step]
  exact ⟨by rw [fetch_and_filter, hrange]; rfl,
         by rw [fetchCalls, hrange]; rfl⟩

/-- C6 witness: an empty session fetches nothing. -/
theorem zero_count_no_fetch_witness :
    fetch_and_filter 0 1000000 (search ⟨"W", "Q", 0⟩) (fun _ _ => []) 200 = []
    ∧ fetchCalls (search ⟨"W", "Q", 0⟩) 200 = [] :=
  zero_count_no_fetch 0 1000000 (search ⟨"W", "Q", 0⟩) (fun _ _ => []) 200 rfl

/-- C4: every row of the `fetch_and_filter` result has its length within
the inclusive bounds, and for every parsed record of every requested page
its `(identifier, length, description)` triple is in the result iff
`min_len ≤ length ≤ max_len`. -/
theorem filter_correct (min_len max_len : Int) (sess : Session)
    (server : Server) (M : Nat) :
    (∀ t ∈ fetch_and_filter min_len max_len sess server M,
        min_len ≤ (t.2.1 : Int) ∧ (t.2.1 : Int) ≤ max_len)
    ∧ (∀ start ∈ pyRange (min sess.count M) step, ∀ r ∈ server start step,
        (r.toRow ∈ fetch_and_filter min_len max_len sess server M ↔
          (min_len ≤ (r.seqLen : Int) ∧ (r.seqLen : Int) ≤ max_len))) := by
  have hmem : ∀ t, t ∈ fetch_and_filter min_len max_len sess server M ↔
      ∃ start ∈ pyRange (min sess.count M) step, ∃ r ∈ server start step,
        (min_len ≤ (r.seqLen : Int) ∧ (r.seqLen : Int) ≤ max_len)
        ∧ r.toRow = t := by
    intro t
    simp only [fetch_and_filter, List.mem_flatMap, List.mem_map,
      List.mem_filter, decide_eq_true_eq]
    constructor
    · rintro ⟨start, hs, r, ⟨hr, hcond⟩, rfl⟩
      exact ⟨start, hs, r, hr, hcond, rfl⟩
    · rintro ⟨start, hs, r, hr, hcond, rfl⟩
      exact ⟨start, hs, r, ⟨hr, hcond⟩, rfl⟩
  constructor
  · intro t ht
    obtain ⟨start, _, r, _, hcond, rfl⟩ := (hmem t).mp ht
    exact hcond
  · intro start hstart r hr
    constructor
    · intro hmem2
      obtain ⟨s2, _, r2, _, hcond, heq⟩ := (hmem r.toRow).mp hmem2
      have hlen : r2.seqLen = r.seqLen := congrArg (fun t => t.2.1) heq
      rw [hlen] at hcond
      exact hcond
    · intro hcond
      exact (hmem r.toRow).mpr ⟨start, hstart, r, hr, hcond, rfl⟩

/-- C4 witness: the spec's end-to-end example — lengths 50, 2000, 800 with
range [100, 1500] keep exactly the 800-record, whose row is present. -/
theorem filter_correct_witness :
    ("B", 800, "b") ∈ fetch_and_filter 100 1500 (search ⟨"W", "Q", 3⟩)
      (sliceServer [⟨"A", 50, "a"⟩, ⟨"C", 2000, "c"⟩, ⟨"B", 800, "b"⟩]) 200 :=
  ((filter_correct 100 1500 (search ⟨"W", "Q", 3⟩)
      (sliceServer [⟨"A", 50, "a"⟩, ⟨"C", 2000, "c"⟩, ⟨"B", 800, "b"⟩]) 200).2
    0 (by decide) ⟨"B", 800, "b"⟩ (by decide)).mpr (by decide)

set_option maxRecDepth 8000 in
/-- C2 counterexample: with `totalCount = 250` and `maxRecords = 150` the
run fetches pages at offsets 0 and 100 with `retmax = 100` each, so the
faithful slice server (which never exceeds the requested `retmax`) hands
back 200 records — more than `min(250, 150) = 150`. -/
theorem fetched_can_exceed_min_bound :
    (∀ s m, (sliceServer bigResultSet s m).length ≤ m)
    ∧ (search ⟨"W", "Q", 250⟩).count = 250
    ∧ bigResultSet.length = 250
    ∧ (fetchedRecords (search ⟨"W", "Q", 250⟩)
        (sliceServer bigResultSet) 150).length = 200
    ∧ ¬ ((fetchedRecords (search ⟨"W", "Q", 250⟩)
          (sliceServer bigResultSet) 150).length ≤ min 250 150) := by
  refine ⟨fun s m => ?_, rfl, by decide, by decide, by decide⟩
  exact List.length_take_le m (bigResultSet.drop s)

/-- C2 amended: across all pages, the number of fetched records is at most
`min(totalCount, maxRecords)` rounded up to a full page of 100, for any
server that returns at most `retmax` records per page; for the faithful
slice server over a result set it is also at most the size of that result
set, and hence at most `min(totalCount, maxRecords)` whenever `maxRecords`
is a multiple of the page size 100. -/
theorem fetched_within_page_ceiling (sess : Session) (server : Server)
    (M : Nat) (hserver : ∀ s m, (server s m).length ≤ m) :
    (fetchedRecords sess server M).length
      ≤ 100 * ((min sess.count M + 99) / 100)
    ∧ (∀ rs : List SeqRecord,
        (fetchedRecords sess (sliceServer rs) M).length ≤ rs.length)
    ∧ (∀ rs : List SeqRecord, rs.length = sess.count → 100 ∣ M →
        (fetchedRecords sess (sliceServer rs) M).length
          ≤ min sess.count M) := by
  have hceil : ∀ (server2 : Server), (∀ s m, (server2 s m).length ≤ m) →
      (fetchedRecords sess server2 M).length
        ≤ 100 * ((min sess.count M + 99) / 100) := by
    intro server2 h2
    have hb := length_flatMap_le_mul (pyRange (min sess.count M) step)
      (fun start => server2 start step) 100
      (fun a _ => h2 a step)
    rw [fetchedRecords]
    refine le_trans hb ?_
    rw [pyRange, List.length_range']
    simp only [step]
    omega
  have hslice : ∀ rs : List SeqRecord,
      (fetchedRecords sess (sliceServer rs) M).length ≤ rs.length := by
    intro rs
    have hs := length_flatMap_slice_le rs step ((min sess.count M + step - 1) / step) 0
    rw [List.drop_zero] at hs
    exact hs
  refine ⟨hceil server hserver, hslice, ?_⟩
  intro rs hlen hdvd
  have h1 := hceil (sliceServer rs)
    (fun s m => List.length_take_le m (rs.drop s))
  have h2 := hslice rs
  rw [hlen] at h2
  have hminM : min sess.count M ≤ M := Nat.min_le_right _ _
  have hminC : min sess.count M ≤ sess.count := Nat.min_le_left _ _
  refine Nat.le_min.mpr ⟨h2, ?_⟩
  refine le_trans h1 ?_
  omega

/-- C2 witness: with `totalCount = 250`, `maxRecords = 200` and the slice
server, the fetched total respects the rounded-up bound. -/
theorem fetched_within_page_ceiling_witness :
    (fetchedRecords (search ⟨"W", "Q", 250⟩)
        (sliceServer bigResultSet) 200).length
      ≤ 100 * ((min (search ⟨"W", "Q", 250⟩).count 200 + 99) / 100) :=
  (fetched_within_page_ceiling (search ⟨"W", "Q", 250⟩)
    (sliceServer bigResultSet) 200
    (fun s m => List.length_take_le m (bigResultSet.drop s))).1

/-- C5 counterexample: on the lengths `[120, 500, 120, 300]` the persisted
order is `[500, 300, 120, 120]` but with the two 120-length rows in
*reversed* relative input order (`"C"` before `"A"`), because pandas
`sort_values(ascending=False)` reverses a stable ascending sort. -/
theorem save_csv_ties_not_stable :
    save_csv tieInput
        ≠ [("B", 500, "b"), ("D", 300, "d"), ("A", 120, "a"), ("C", 120, "c")]
    ∧ save_csv tieInput
        = [("B", 500, "b"), ("D", 300, "d"), ("C", 120, "c"), ("A", 120, "a")] := by
  decide

/-- C5 amended: for every non-empty input, the persisted output of
`save_csv` is a permutation of the input sorted descending by length; but
the sort is not stable for equal lengths — the code reverses a stable
ascending sort, so the input with lengths `[120, 500, 120, 300]` yields
`[500, 300, 120, 120]` with the two 120-length records in reversed
relative input order. -/
theorem save_csv_sorted_desc (data : List Row) (_h : data ≠ []) :
    (save_csv data).Perm data
    ∧ (save_csv data).Pairwise (fun a b => b.2.1 ≤ a.2.1)
    ∧ save_csv tieInput
        = [("B", 500, "b"), ("D", 300, "d"), ("C", 120, "c"), ("A", 120, "a")] := by
  refine ⟨save_csv_perm_helper data, ?_, by decide⟩
  rw [save_csv, List.pairwise_reverse]
  exact List.sorted_insertionSort lengthLe data

/-- C5 witness: the output on the example input is a descending
permutation of it. -/
theorem save_csv_sorted_desc_witness :
    (save_csv tieInput).Perm tieInput :=
  (save_csv_sorted_desc tieInput (by decide)).1

/-- C10: the rows `save_csv` persists are a permutation of its input:
sorting neither drops, duplicates, nor alters any record. -/
theorem save_csv_rows_permutation (data : List Row) :
    (save_csv data).Perm data :=
  save_csv_perm_helper data

/-- C7 counterexample: calling `fetch_and_filter` before any `search`
fails with Python's `AttributeError` on the unset `count` attribute, not
with the `SequenceError: NoActiveSession` the claim names (no such type
exists in the source). -/
theorem fetch_before_search_not_sequence_error :
    fetchAndFilterRun 0 1000000 none (fun _ _ => []) 200
        = Except.error (RunError.attributeError "count")
    ∧ fetchAndFilterRun 0 1000000 none (fun _ _ => []) 200
        ≠ Except.error RunError.sequenceErrorNoActiveSession := by
  refine ⟨rfl, ?_⟩
  intro h
  rw [fetchAndFilterRun] at h
  injection h with h2
  exact RunError.noConfusion h2

/-- C7 amended: if `fetch_and_filter` is called before any successful
`search`, it fails immediately — with an `AttributeError` on the missing
session attribute rather than a `SequenceError: NoActiveSession` — and
does not proceed to fetch. -/
theorem fetch_before_search_fails (min_len max_len : Int) (server : Server)
    (M : Nat) :
    fetchAndFilterRun min_len max_len none server M
      = Except.error (RunError.attributeError "count") := rfl

/-- C8: the CLI run prints a status message and returns with exit code 0
both when the search yields zero matches and when filtering keeps zero
records, writing no file; in every other case it writes
`taxid_{taxid}_filtered.csv` and `taxid_{taxid}_plot.png` and prints
their names (still exiting 0). -/
theorem main_exit_behavior (args : Args) (res : ESearchResult)
    (server : Server) :
    (res.count = 0 →
      mainRun args res server =
        { printed := [searchingMsg args, "No records found."],
          filesWritten := [], exitCode := 0 })
    ∧ (res.count ≠ 0 →
        fetch_and_filter args.min_len args.max_len (search res) server
          args.limit = [] →
        mainRun args res server =
          { printed := [searchingMsg args, "Fetching & filtering...",
                        "No records within length range."],
            filesWritten := [], exitCode := 0 })
    ∧ (res.count ≠ 0 →
        fetch_and_filter args.min_len args.max_len (search res) server
          args.limit ≠ [] →
        mainRun args res server =
          { printed := [searchingMsg args, "Fetching & filtering...",
                        "Saved CSV: " ++ csvName args,
                        "Saved plot: " ++ pngName args],
            filesWritten := [csvName args, pngName args], exitCode := 0 }) := by
  have hc : (search res).count = res.count := rfl
  refine ⟨?_, ?_, ?_⟩
  · intro h0
    rw [mainRun, hc, if_pos h0]
  · intro h0 hdata
    rw [mainRun, hc, if_neg h0, if_pos hdata]
  · intro h0 hdata
    rw [mainRun, hc, if_neg h0, if_neg hdata]

/-- C8 witness: a search with zero matches prints the status lines, writes
no file and exits 0. -/
theorem main_exit_behavior_witness :
    mainRun ⟨"e", "k", "9606", 0, 1000000, 200⟩ ⟨"W", "Q", 0⟩ (fun _ _ => [])
      = { printed := ["Searching TaxID 9606...", "No records found."],
          filesWritten := [], exitCode := 0 } :=
  (main_exit_behavior ⟨"e", "k", "9606", 0, 1000000, 200⟩ ⟨"W", "Q", 0⟩
    (fun _ _ => [])).1 rfl

end NCBI
